import Mathlib

/-!
Verification of the synchronization core of the `wasm_kernel` repository:
the maitake `Clock`/`Instant` time types, the maitake `WaitCell`, the
cordyceps unsynchronized intrusive `Stack`, and the x86-64 HAL PIT driver.

Rust machine integers are embedded as `Nat` with explicit `% 2 ^ w`
reductions where overflow matters.  `core::time::Duration` (a `u64`
seconds count plus a sub-second nanosecond count below `10 ^ 9`) is
embedded as its exact total number of nanoseconds, a natural number no
greater than `DUR_MAX_NANOS`; the checked/saturating arithmetic of
`Duration` on this representation coincides with the Rust operations.
-/

namespace Spec2Proof

/-! ## `core::time::Duration`, embedded as total nanoseconds -/

/-- Total nanoseconds of `Duration::MAX`, i.e. `u64::MAX` seconds plus
`999_999_999` nanoseconds. -/
def DUR_MAX_NANOS : Nat := (2 ^ 64 - 1) * 1000000000 + 999999999

/-- Rust `Duration::checked_add`: `none` exactly when the sum does not fit a
`Duration` (the seconds field would overflow `u64`). -/
def durCheckedAdd (a b : Nat) : Option Nat :=
  if a + b ≤ DUR_MAX_NANOS then some (a + b) else none

/-- Rust `Duration::checked_sub`: `none` exactly when the subtrahend is larger. -/
def durCheckedSub (a b : Nat) : Option Nat :=
  if b ≤ a then some (a - b) else none

/-- Rust `Duration::saturating_mul(rhs: u32)`: the product, saturating at
`Duration::MAX`. -/
def durSaturatingMul (a rhs : Nat) : Nat :=
  min (a * rhs) DUR_MAX_NANOS

/-- Rust `Duration::as_millis`: whole milliseconds (exact in `u128`). -/
def durAsMillis (a : Nat) : Nat := a / 1000000

/-! ## `maitake::time::clock` (src/maitake/src/time/clock.rs) -/

/-- Rust `Ticks` is `u64`; tick counts are naturals below `2 ^ 64`. -/
def TICKS_MAX : Nat := 2 ^ 64 - 1

/-- Rust `ticks_to_dur(tick_duration, ticks)` from clock.rs line 135:
`tick_duration.saturating_mul(ticks as u32)`.  The `as u32` cast
truncates the 64-bit tick count to its low 32 bits. -/
def ticks_to_dur (tick_duration ticks : Nat) : Nat :=
  durSaturatingMul tick_duration (ticks % 2 ^ 32)

/-- Rust `Clock::now` (clock.rs lines 120-125), as a function of the tick
count `t` returned by the clock's `now` function pointer: the `Instant`
wraps `ticks_to_dur tick_duration t`.  An `Instant` is embedded as the
total nanoseconds of its inner `Duration`. -/
def clockNow (tick_duration t : Nat) : Nat :=
  ticks_to_dur tick_duration t

/-- The tick-to-Instant conversion as the specification words it:
`tick_duration * now_fn()` using saturating multiplication over the full
64-bit tick count.  (Spec-side definition, for comparison with
`ticks_to_dur`, which is translated from the source.) -/
def specTicksToDur (tick_duration ticks : Nat) : Nat :=
  min (tick_duration * ticks) DUR_MAX_NANOS

/-! ## `maitake::time::Instant` arithmetic (clock.rs lines 199-278) -/

/-- Rust `Instant::checked_add(Duration)` (clock.rs line 223). -/
def instantCheckedAdd (t d : Nat) : Option Nat := durCheckedAdd t d

/-- Rust `Instant::checked_sub(Duration)` (clock.rs line 231). -/
def instantCheckedSub (t d : Nat) : Option Nat := durCheckedSub t d

/-- Rust `Instant::checked_duration_since` (clock.rs line 209). -/
def checkedDurationSince (t earlier : Nat) : Option Nat :=
  durCheckedSub t earlier

/-- Rust `Instant::duration_since` (clock.rs line 202): the checked difference,
or the zero duration when `earlier` is later. -/
def durationSince (t earlier : Nat) : Nat :=
  (checkedDurationSince t earlier).getD 0

/-- Rust `impl Sub<Instant> for Instant` (clock.rs line 275): `a - b` is
`a.duration_since(b)`. -/
def instantSubInstant (a b : Nat) : Nat := durationSince a b

/-- Rust `impl Add<Duration> for Instant` (clock.rs line 243):
`checked_add` followed by `expect`; defined on the non-overflowing
domain, where it is the sum. -/
def instantAddDur (t d : Nat) : Nat := t + d

/-! ## `maitake::wait::cell::WaitCell` (src/maitake/src/wait/cell.rs)

The cell is a `usize` state word (bits `PARKING = 0b001`,
`NOTIFYING = 0b010`, `CLOSED = 0b100`; `WAITING = 0` is the absence of
bits) together with a slot holding an optional `Waker`.  Wakers are
embedded as naturals; `Waker::will_wake` is an abstract boolean
relation passed as a parameter. -/

/-- Waker handles, abstractly. -/
abbrev Waker := Nat

/-- A `WaitCell`: the atomic `usize` state word and the waker slot. -/
structure WaitCell where
  state : Nat
  waker : Option Waker
  deriving Repr, DecidableEq

/-- Rust `State::WAITING = 0b000`. -/
def WAITING : Nat := 0
/-- Rust `State::PARKING = 0b001`. -/
def PARKING : Nat := 1
/-- Rust `State::NOTIFYING = 0b010`. -/
def NOTIFYING : Nat := 2
/-- Rust `State::CLOSED = 0b100`. -/
def CLOSED : Nat := 4

/-- Rust `!State::NOTIFYING` as a 64-bit `usize` mask: every bit except bit 1. -/
def NOT_NOTIFYING : Nat := 2 ^ 64 - 1 - NOTIFYING

/-- Rust `State::is` (cell.rs line 268): `self.0 & state == state`. -/
def stateIs (s bits : Nat) : Bool := s &&& bits == bits

/-- Errors of `WaitCell::register_wait` (cell.rs `enum Error`). -/
inductive CellError where
  | closed
  | busy
  deriving Repr, DecidableEq

instance exceptDecEq {α β : Type} [DecidableEq α] [DecidableEq β] :
    DecidableEq (Except α β) := fun x y =>
  match x, y with
  | .ok a, .ok b =>
      if h : a = b then .isTrue (by rw [h])
      else .isFalse (fun hc => by cases hc; exact h rfl)
  | .ok _, .error _ => .isFalse (fun hc => by cases hc)
  | .error _, .ok _ => .isFalse (fun hc => by cases hc)
  | .error a, .error b =>
      if h : a = b then .isTrue (by rw [h])
      else .isFalse (fun hc => by cases hc; exact h rfl)

/-- Result of one `register_wait` call: the returned value, the cell
afterwards, the displaced old waker that was woken mid-call (cell.rs
line 126), and the waker taken and woken in the failed-CAS branch
(cell.rs line 145). -/
structure RegOut where
  result : Except CellError Unit
  cell : WaitCell
  wokenOld : Option Waker
  wokenTaken : Option Waker
  deriving Repr, DecidableEq

/-- Rust `WaitCell::register_wait` (cell.rs lines 94-153).

The call performs up to four atomic operations; other threads can only
interleave while this call holds the `PARKING` bit, and the only writes
another thread can perform during that window are `fetch_or`s from
`notify2` (any notifier's `fetch_and` is ordered before this call's
first CAS, and a concurrent `register_wait` fails its first CAS without
writing).  The parameter `intf` is the union of the bits OR-ed into the
state word by such notifiers while `PARKING` was held, so the state
observed by the final compare-exchange is `PARKING ||| intf`.

Steps, as in the source: (1) CAS `WAITING → PARKING`, acquiring the
slot on success, returning `Closed` if the observed state has `CLOSED`
set and `Busy` otherwise; (2) replace the slot with the new waker
unless the old one `will_wake`s it, waking any displaced old waker;
(3) CAS `PARKING → WAITING`; on failure take the slot, `fetch_and` the
state with `CLOSED`, wake the taken waker, and return `Closed`. -/
def register_wait (willWake : Waker → Waker → Bool) (wk : Waker)
    (intf : Nat) (c : WaitCell) : RegOut :=
  if c.state = WAITING then
    -- CAS `WAITING → PARKING` succeeded; we own the slot.
    let slotAndOld : Option Waker × Option Waker :=
      match c.waker with
      | some old => if willWake wk old then (some old, none) else (some wk, some old)
      | none => (some wk, none)
    let slot1 := slotAndOld.1
    let prevWaker := slotAndOld.2
    let atFinish := PARKING ||| intf
    if atFinish = PARKING then
      -- CAS `PARKING → WAITING` succeeded.
      ⟨.ok (), ⟨WAITING, slot1⟩, prevWaker, none⟩
    else
      -- CAS failed: a notifier intervened while we held `PARKING`.
      let taken := slot1
      let after := atFinish &&& CLOSED
      ⟨.error .closed, ⟨after, none⟩, prevWaker, taken⟩
  else if stateIs c.state CLOSED then
    ⟨.error .closed, c, none, none⟩
  else
    ⟨.error .busy, c, none, none⟩

/-- Result of one `notify2` call: the returned boolean, the cell
afterwards, and the waker woken (if any). -/
structure NotifyOut where
  result : Bool
  cell : WaitCell
  woken : Option Waker
  deriving Repr, DecidableEq

/-- Rust `WaitCell::notify2` (cell.rs lines 173-189): `fetch_or` of
`NOTIFYING | close`; if the prior state was exactly `WAITING`, take the
slot, `fetch_and` with `!NOTIFYING`, wake the taken waker and return
whether one was present; otherwise return `false`.  `wake()` is
`notify2 WAITING` and `close()` is `notify2 CLOSED`. -/
def notify2 (close : Nat) (c : WaitCell) : NotifyOut :=
  let prev := c.state
  let s1 := prev ||| (NOTIFYING ||| close)
  if prev = WAITING then
    let taken := c.waker
    let s2 := s1 &&& NOT_NOTIFYING
    match taken with
    | some w => ⟨true, ⟨s2, none⟩, some w⟩
    | none => ⟨false, ⟨s2, none⟩, none⟩
  else
    ⟨false, ⟨s1, c.waker⟩, none⟩

/-- The individual atomic writes that the `WaitCell` code can perform on
a cell, as a step relation: the two compare-exchanges of
`register_wait` (a failed compare-exchange writes nothing), the
`fetch_and CLOSED` of `register_wait`'s failure branch, the `fetch_or`
and `fetch_and !NOTIFYING` of `notify2` (with close bits `WAITING` or
`CLOSED`), and the slot writes performed while holding the exclusive
right. -/
inductive CellStep : WaitCell → WaitCell → Prop where
  | casParkStart (w : Option Waker) :
      CellStep ⟨WAITING, w⟩ ⟨PARKING, w⟩
  | casParkFinish (w : Option Waker) :
      CellStep ⟨PARKING, w⟩ ⟨WAITING, w⟩
  | regFetchAndClosed (s : Nat) (w : Option Waker) :
      CellStep ⟨s, w⟩ ⟨s &&& CLOSED, w⟩
  | notifyFetchOr (close s : Nat) (w : Option Waker) :
      close = WAITING ∨ close = CLOSED →
      CellStep ⟨s, w⟩ ⟨s ||| (NOTIFYING ||| close), w⟩
  | notifyFetchAnd (s : Nat) (w : Option Waker) :
      CellStep ⟨s, w⟩ ⟨s &&& NOT_NOTIFYING, w⟩
  | slotWrite (s : Nat) (w w2 : Option Waker) :
      CellStep ⟨s, w⟩ ⟨s, w2⟩

/-! ## The `Wait` future (cell.rs lines 236-258) -/

/-- Rust `core::task::Poll`. -/
inductive Poll (α : Type) where
  | pending
  | ready (a : α)
  deriving Repr, DecidableEq

/-- The `Wait` future's own state: the `registered` flag. -/
structure WaitFuture where
  registered : Bool
  deriving Repr, DecidableEq

/-- Result of one `Wait::poll` call: the returned `Poll` (payload
`Except Unit Unit`, where `.error ()` is `Err(Closed)`), the future and
cell afterwards, whether the call invoked any operation on the cell,
and whether it self-woke (`wake_by_ref` on `Busy`). -/
structure PollOut where
  out : Poll (Except Unit Unit)
  fut : WaitFuture
  cell : WaitCell
  touchedCell : Bool
  selfWoke : Bool
  deriving Repr, DecidableEq

/-- Rust `Wait::poll` (cell.rs lines 239-257): if `registered` is already
set, return `Ready(Ok(()))` immediately; otherwise call
`register_wait` with the context's waker, returning `Pending` (and
setting `registered`) on `Ok`, self-waking and returning `Pending` on
`Busy`, and returning `Ready(Err(Closed))` on `Closed`. -/
def wait_poll (willWake : Waker → Waker → Bool) (wk : Waker) (intf : Nat)
    (fut : WaitFuture) (c : WaitCell) : PollOut :=
  if fut.registered then
    ⟨.ready (.ok ()), fut, c, false, false⟩
  else
    let r := register_wait willWake wk intf c
    match r.result with
    | .ok _ => ⟨.pending, ⟨true⟩, r.cell, true, false⟩
    | .error .busy => ⟨.pending, ⟨false⟩, r.cell, true, true⟩
    | .error .closed => ⟨.ready (.error ()), ⟨false⟩, r.cell, true, false⟩

/-! ## `cordyceps::transfer_stack::Stack` (src/cordyceps/src/transfer_stack.rs)

The unsynchronized intrusive stack: a `head` pointer plus, intrusively
in each element, a `Links.next` pointer.  Elements are embedded as
their stable addresses (naturals); the heap of `next` links is an
explicit function from addresses to optional addresses.  `Links::new`
initializes `next` to null, so in the all-fresh initial state every
`next` is `none`. -/

/-- An unsync `Stack` together with the `Links.next` fields of all
elements: `head` is the stack's head pointer, `next p` the embedded
`next` pointer of the element at address `p`. -/
@[ext]
structure UStack where
  head : Option Nat
  next : Nat → Option Nat

/-- The empty stack over all-fresh elements (every `Links.next` null,
per `Links::new`). -/
def UStack.empty : UStack := ⟨none, fun _ => none⟩

/-- Rust `Stack::push` (transfer_stack.rs lines 147-159): write the pushed
element's `next` to the current head, then replace the head with it. -/
def UStack.push (s : UStack) (p : Nat) : UStack :=
  ⟨some p, fun q => if q = p then s.head else s.next q⟩

/-- Rust `Stack::pop` (transfer_stack.rs lines 162-177): take the head; if
present, advance the head to its `next` while taking (clearing) that
`next` link, and return it.  `Iterator::next` for `Stack` is `pop`
(line 216). -/
def UStack.pop : UStack → Option Nat × UStack
  | ⟨none, nxt⟩ => (none, ⟨none, nxt⟩)
  | ⟨some h, nxt⟩ => (some h, ⟨nxt h, fun q => if q = h then none else nxt q⟩)

/-- Push a whole list of elements, in order. -/
def UStack.pushAll (s : UStack) : List Nat → UStack
  | [] => s
  | p :: ps => UStack.pushAll (s.push p) ps

/-- Pop `n` times, collecting the popped elements in order (stopping
early if the stack empties). -/
def UStack.popN : Nat → UStack → List Nat × UStack
  | 0, s => ([], s)
  | n + 1, s =>
      match s.pop with
      | (none, s2) => ([], s2)
      | (some h, s2) =>
          let r := UStack.popN n s2
          (h :: r.1, r.2)

/-! ## `hal_x86_64::time::pit::Pit` (src/hal-x86_64/src/time/pit.rs)

Durations are the nanosecond embedding above; `usize` arithmetic is
64-bit, so products are reduced `% 2 ^ 64` (Rust release semantics:
overflowing `usize` multiplication wraps).  Port writes are recorded as
`(port, byte)` pairs. -/

/-- Rust `Pit::BASE_FREQUENCY_HZ / 1000` (pit.rs line 224). -/
def TICKS_PER_MS : Nat := 1193180 / 1000

/-- Rust `usize::MAX + 1`. -/
def USIZE_MOD : Nat := 2 ^ 64

/-- Channel 0 data port `0x40` (pit.rs line 229). -/
def PORT_CHANNEL0 : Nat := 0x40
/-- Command port `0x43` (pit.rs line 232). -/
def PORT_COMMAND : Nat := 0x43

/-- The PIT command byte, assembled per the `bitfield!` layout of
`Command` (pit.rs lines 100-153): bit 0 BCD/binary, bits 1-3 operating
mode, bits 4-5 access mode, bits 6-7 channel select. -/
def commandByte (bcd : Bool) (mode access channel : Nat) : Nat :=
  (if bcd then 1 else 0) + mode * 2 + access * 16 + channel * 64

/-- Rust `OperatingMode::Interrupt = 0b000` (mode 0, oneshot). -/
def MODE_INTERRUPT : Nat := 0
/-- Rust `OperatingMode::SquareWave = 0b011` (mode 3, periodic). -/
def MODE_SQUARE_WAVE : Nat := 3
/-- Rust `AccessMode::Both = 0b11`. -/
def ACCESS_BOTH : Nat := 3
/-- Rust `ChannelSelect::Channel0 = 0b00`. -/
def CHANNEL_0 : Nat := 0

/-- Rust `InvalidDuration` (hal time error): the rejected duration and the
static message. -/
structure InvalidDur where
  duration : Nat
  message : String
  deriving Repr, DecidableEq

/-- Rust `PitError` (pit.rs lines 91-98). -/
inductive PitError where
  | alreadyRunning
  | sleepInProgress
  | invalidDuration (e : InvalidDur)
  deriving Repr, DecidableEq

/-- Rust `Pit::set_divisor` (pit.rs lines 412-422): write the low byte then
the high byte of the divisor to the channel 0 port. -/
def setDivisorWrites (divisor : Nat) : List (Nat × Nat) :=
  [(PORT_CHANNEL0, divisor % 256), (PORT_CHANNEL0, divisor / 256)]

/-- Result of `Pit::interrupt_in`: the returned value and the port
writes performed. -/
structure InterruptInOut where
  result : Except InvalidDur Unit
  writes : List (Nat × Nat)
  deriving Repr, DecidableEq

/-- Rust `Pit::interrupt_in` (pit.rs lines 376-406): convert the duration to
whole milliseconds (`usize::try_from` fails above `usize::MAX`),
compute `TICKS_PER_MS * duration_ms` in wrapping `usize` arithmetic,
reject the result if it exceeds `u16::MAX`, then write the mode-0
command byte and the two divisor bytes. -/
def interrupt_in (duration : Nat) : InterruptInOut :=
  let millis := durAsMillis duration
  if millis ≥ USIZE_MOD then
    ⟨.error ⟨duration, "PIT interrupt duration as milliseconds would exceed a usize"⟩, []⟩
  else
    let target_time := TICKS_PER_MS * millis % USIZE_MOD
    if target_time ≥ 2 ^ 16 then
      ⟨.error ⟨duration, "PIT interrupt target tick count would exceed a u16"⟩, []⟩
    else
      let cmd := commandByte false MODE_INTERRUPT ACCESS_BOTH CHANNEL_0
      ⟨.ok (), (PORT_COMMAND, cmd) :: setDivisorWrites target_time⟩

/-- Result of `Pit::start_periodic_timer`: the returned value, the port
writes performed, and the `channel0_interval` field afterwards. -/
structure PeriodicOut where
  result : Except PitError Unit
  writes : List (Nat × Nat)
  channel0_interval : Option Nat
  deriving Repr, DecidableEq

/-- Rust `Pit::start_periodic_timer` (pit.rs lines 321-362): fail with
`SleepInProgress` if the `SLEEPING` flag is set; otherwise compute the
divisor exactly as `interrupt_in` does, remember the interval, and
write the mode-3 command byte and the two divisor bytes. -/
def start_periodic_timer (sleeping : Bool) (interval : Nat)
    (channel0_interval : Option Nat) : PeriodicOut :=
  if sleeping then
    ⟨.error .sleepInProgress, [], channel0_interval⟩
  else
    let millis := durAsMillis interval
    if millis ≥ USIZE_MOD then
      ⟨.error (.invalidDuration
          ⟨interval, "PIT periodic timer interval as milliseconds would exceed a usize"⟩),
        [], channel0_interval⟩
    else
      let interval_ticks := TICKS_PER_MS * millis % USIZE_MOD
      if interval_ticks ≥ 2 ^ 16 then
        ⟨.error (.invalidDuration
            ⟨interval, "PIT channel 0 divisor would exceed a u16"⟩),
          [], channel0_interval⟩
      else
        let cmd := commandByte false MODE_SQUARE_WAVE ACCESS_BOTH CHANNEL_0
        ⟨.ok (), (PORT_COMMAND, cmd) :: setDivisorWrites interval_ticks, some interval⟩

/-- Outcome of `Pit::sleep_blocking` up to its suspension point. -/
inductive SleepOutcome where
  | failedSleepInProgress
  | failedInvalidDuration (e : InvalidDur)
  | spinning
  deriving Repr, DecidableEq

/-- Result of the prefix of `Pit::sleep_blocking` before the spin loop:
the outcome, the `SLEEPING` flag afterwards, and the port writes. -/
structure SleepOut where
  outcome : SleepOutcome
  sleeping : Bool
  writes : List (Nat × Nat)
  deriving Repr, DecidableEq

/-- Rust `Pit::sleep_blocking` (pit.rs lines 281-303) up to the spin loop:
compare-exchange `SLEEPING` from `false` to `true` (failing with
`SleepInProgress` if already set), then `interrupt_in`; on error return
it (wrapped in `PitError::InvalidDuration`) with the flag left set;
on success the call proceeds to spin until an interrupt clears the
flag. -/
def sleep_blocking_start (sleeping : Bool) (duration : Nat) : SleepOut :=
  if sleeping then
    ⟨.failedSleepInProgress, sleeping, []⟩
  else
    let r := interrupt_in duration
    match r.result with
    | .error e => ⟨.failedInvalidDuration e, true, r.writes⟩
    | .ok _ => ⟨.spinning, true, r.writes⟩

/-- Rust `Pit::handle_interrupt` (pit.rs lines 408-410): swap `SLEEPING` to
`false`, returning the prior value; result is `(returned, new flag)`. -/
def handle_interrupt (sleeping : Bool) : Bool × Bool := (sleeping, false)

/-! ## Theorems -/

/-- C1.  The claim says `Clock::now` returns `tick_duration * t` with
saturating multiplication over the full 64-bit tick count.  The code
(`ticks_to_dur`, clock.rs line 136) instead computes
`tick_duration.saturating_mul(ticks as u32)`, truncating the tick count
to its low 32 bits.  At `tick_duration` = 1 s and `t = Ticks::MAX =
u64::MAX`, the code yields `(2^32 - 1)` seconds, while the claimed
value is `(2^64 - 1)` seconds (which fits a `Duration`, so saturation
is not even reached): the two differ. -/
theorem c1_clock_now_truncates_ticks :
    clockNow (10 ^ 9) (2 ^ 64 - 1) = (2 ^ 32 - 1) * 10 ^ 9 ∧
    specTicksToDur (10 ^ 9) (2 ^ 64 - 1) = (2 ^ 64 - 1) * 10 ^ 9 ∧
    clockNow (10 ^ 9) (2 ^ 64 - 1) ≠ specTicksToDur (10 ^ 9) (2 ^ 64 - 1) := by
  refine ⟨by decide, by decide, by decide⟩

/-- C2.  The claim says the tick-to-Instant conversion is monotone
nondecreasing over the full 64-bit tick range.  Because `ticks_to_dur`
truncates the tick count to `u32`, it is not: with a 1 ns tick, tick
count `2^32 - 1` maps to `2^32 - 1` ns but the larger tick count `2^32`
maps to 0 ns.  (This also contradicts clock.rs's own documentation that
`Instant`s from a correct clock never decrease.) -/
theorem c2_clock_now_not_monotone :
    (2 ^ 32 - 1 : Nat) ≤ 2 ^ 32 ∧
    clockNow 1 (2 ^ 32) < clockNow 1 (2 ^ 32 - 1) := by
  refine ⟨by decide, by decide⟩

/-- C9.  Instant arithmetic round-trips: when `t + d` does not overflow
(`checked_add` returns `some`), `(t + d) - t = d`; `checked_add` and
`checked_sub` return `none` exactly on overflow (sum above
`Duration::MAX`, respectively subtrahend larger than the instant); and
`a - b` (`Sub<Instant>`, via `duration_since`) is the difference when
`a ≥ b` and the zero duration when `b` is later. -/
theorem c9_instant_roundtrip (t d a b : Nat)
    (ht : t ≤ DUR_MAX_NANOS) (hd : d ≤ DUR_MAX_NANOS)
    (ha : a ≤ DUR_MAX_NANOS) (hb : b ≤ DUR_MAX_NANOS) :
    (∀ t2, instantCheckedAdd t d = some t2 → instantSubInstant t2 t = d) ∧
    (instantCheckedAdd t d = none ↔ DUR_MAX_NANOS < t + d) ∧
    (instantCheckedSub t d = none ↔ t < d) ∧
    (b ≤ a → instantSubInstant a b = a - b) ∧
    (a < b → instantSubInstant a b = 0) := by
  refine ⟨?_, ?_, ?_, ?_, ?_⟩
  · intro t2 h
    unfold instantCheckedAdd durCheckedAdd at h
    split at h
    · cases h
      unfold instantSubInstant durationSince checkedDurationSince durCheckedSub
      rw [if_pos (Nat.le_add_right t d)]
      simp
    · cases h
  · unfold instantCheckedAdd durCheckedAdd
    split <;> simp <;> omega
  · unfold instantCheckedSub durCheckedSub
    split <;> simp <;> omega
  · intro hba
    unfold instantSubInstant durationSince checkedDurationSince durCheckedSub
    rw [if_pos hba]
    simp
  · intro hab
    unfold instantSubInstant durationSince checkedDurationSince durCheckedSub
    rw [if_neg (by omega)]
    simp

/-- Witness for C9 at `t = 1`, `d = 2`, `a = 5`, `b = 3`. -/
theorem c9_instant_roundtrip_witness :
    (∀ t2, instantCheckedAdd 1 2 = some t2 → instantSubInstant t2 1 = 2) ∧
    (instantCheckedAdd 1 2 = none ↔ DUR_MAX_NANOS < 1 + 2) ∧
    (instantCheckedSub 1 2 = none ↔ 1 < 2) ∧
    (3 ≤ 5 → instantSubInstant 5 3 = 5 - 3) ∧
    (5 < 3 → instantSubInstant 5 3 = 0) :=
  c9_instant_roundtrip 1 2 5 3 (by decide) (by decide) (by decide) (by decide)

/-- A state word with bit 2 (`CLOSED`) set satisfies `State::is(CLOSED)`. -/
theorem and_closed_of_testBit {s : Nat} (h : s.testBit 2 = true) : s &&& CLOSED = CLOSED := by
  apply Nat.eq_of_testBit_eq
  intro j
  rw [Nat.testBit_and]
  rcases eq_or_ne j 2 with rfl | hj
  · rw [h]
    decide
  · have h4 : (CLOSED : Nat).testBit j = false := by
      have : (2 ^ 2 : Nat).testBit j = false := Nat.testBit_two_pow_of_ne (by omega)
      simpa [CLOSED] using this
    simp [h4]

/-- C4.  The `CLOSED` bit of the state word is monotone: no atomic write
performed by the `WaitCell` code (`CellStep`) clears bit 2 once it is
set; and every `register_wait` whose initial compare-exchange observes
a state with `CLOSED` set returns `Err(Closed)` (without modifying the
cell). -/
theorem c4_closed_bit_monotone :
    (∀ c c2 : WaitCell, CellStep c c2 →
        c.state.testBit 2 = true → c2.state.testBit 2 = true) ∧
    (∀ (willWake : Waker → Waker → Bool) (wk : Waker) (intf : Nat) (c : WaitCell),
        c.state.testBit 2 = true →
        (register_wait willWake wk intf c).result = .error .closed ∧
        (register_wait willWake wk intf c).cell = c) := by
  constructor
  · intro c c2 hstep hbit
    cases hstep with
    | casParkStart w =>
        have h2 : Nat.testBit WAITING 2 = true := hbit
        exact absurd h2 (by decide)
    | casParkFinish w =>
        have h2 : Nat.testBit PARKING 2 = true := hbit
        exact absurd h2 (by decide)
    | regFetchAndClosed s w =>
        simp only [Nat.testBit_and] at hbit ⊢
        simp only [hbit]
        decide
    | notifyFetchOr close s w hc =>
        simp [Nat.testBit_or, hbit]
    | notifyFetchAnd s w =>
        simp only [Nat.testBit_and] at hbit ⊢
        simp only [hbit]
        decide
    | slotWrite s w w2 => exact hbit
  · intro willWake wk intf c hbit
    have hne : c.state ≠ WAITING := by
      intro h0
      rw [h0] at hbit
      simp [WAITING] at hbit
    have hclosed : stateIs c.state CLOSED = true := by
      simp [stateIs, and_closed_of_testBit hbit]
    unfold register_wait
    rw [if_neg hne, if_pos hclosed]
    exact ⟨rfl, rfl⟩

/-- Witness for C4: the `fetch_and CLOSED` step from state `0b101`
preserves the closed bit, and `register_wait` on a closed cell returns
`Err(Closed)`. -/
theorem c4_closed_bit_monotone_witness :
    (WaitCell.mk (5 &&& CLOSED) none).state.testBit 2 = true ∧
    (register_wait (fun a b => a == b) 0 0 ⟨CLOSED, none⟩).result = .error .closed ∧
    (register_wait (fun a b => a == b) 0 0 ⟨CLOSED, none⟩).cell = ⟨CLOSED, none⟩ :=
  ⟨c4_closed_bit_monotone.1 ⟨5, none⟩ ⟨5 &&& CLOSED, none⟩
      (CellStep.regFetchAndClosed 5 none) (by decide),
    c4_closed_bit_monotone.2 (fun a b => a == b) 0 0 ⟨CLOSED, none⟩ (by decide)⟩

/-- C5.  When `register_wait`'s final compare-exchange from `PARKING`
back to `WAITING` fails (a notifier OR-ed bits `intf ≠ 0` into the
state word while `PARKING` was held; notifiers can only OR in
`NOTIFYING` and `CLOSED`), the call takes and clears the waker slot,
ANDs the state word with `CLOSED` so only the closed bit (if present)
survives, wakes the waker just taken from the slot (one is always
present at this point), and returns `Err(Closed)`. -/
theorem c5_register_failed_cas (willWake : Waker → Waker → Bool) (wk : Waker)
    (intf : Nat) (c : WaitCell) (hwait : c.state = WAITING)
    (hintf : intf &&& (NOTIFYING ||| CLOSED) = intf) (hne : intf ≠ 0) :
    (register_wait willWake wk intf c).result = .error .closed ∧
    (register_wait willWake wk intf c).cell.waker = none ∧
    (register_wait willWake wk intf c).cell.state = intf &&& CLOSED ∧
    (register_wait willWake wk intf c).wokenTaken.isSome = true := by
  obtain ⟨s, w⟩ := c
  simp only [WaitCell.state] at hwait
  subst hwait
  have hle : intf ≤ 6 := by
    calc intf = intf &&& (NOTIFYING ||| CLOSED) := hintf.symm
    _ ≤ NOTIFYING ||| CLOSED := Nat.and_le_right
    _ = 6 := by decide
  interval_cases intf
  · exact absurd rfl hne
  · exact absurd hintf (by decide)
  all_goals
    rcases w with _ | old
    · simp [register_wait, WAITING, PARKING, NOTIFYING, CLOSED]
      try decide
    · by_cases hww : willWake wk old <;>
        simp [register_wait, WAITING, PARKING, NOTIFYING, CLOSED, hww] <;>
        try decide

/-- Witness for C5 at `wk = 7`, `intf = NOTIFYING`, on a cell in
`WAITING` with an empty slot. -/
theorem c5_register_failed_cas_witness :
    (register_wait (fun a b => a == b) 7 NOTIFYING ⟨WAITING, none⟩).result = .error .closed ∧
    (register_wait (fun a b => a == b) 7 NOTIFYING ⟨WAITING, none⟩).cell.waker = none ∧
    (register_wait (fun a b => a == b) 7 NOTIFYING ⟨WAITING, none⟩).cell.state
      = NOTIFYING &&& CLOSED ∧
    (register_wait (fun a b => a == b) 7 NOTIFYING ⟨WAITING, none⟩).wokenTaken.isSome = true :=
  c5_register_failed_cas (fun a b => a == b) 7 NOTIFYING ⟨WAITING, none⟩
    (by decide) (by decide) (by decide)

/-- C6.  `notify2` (thus `wake` and `close`) with close bits `0` or
`CLOSED`: if the `fetch_or` of `NOTIFYING | close` observes prior state
exactly `WAITING`, the call takes and clears the waker slot, ANDs the
state with `!NOTIFYING` (leaving exactly the close bits, so `CLOSED` is
preserved when set), wakes the taken waker, and returns `true` iff a
waker was present; for every other prior state it returns `false`
without touching the slot. -/
theorem c6_notify2 (close : Nat) (c : WaitCell)
    (hclose : close = WAITING ∨ close = CLOSED) :
    (c.state = WAITING →
      (notify2 close c).cell.waker = none ∧
      (notify2 close c).cell.state = close ∧
      ((notify2 close c).result = true ↔ c.waker.isSome = true) ∧
      (notify2 close c).woken = c.waker) ∧
    (c.state ≠ WAITING →
      (notify2 close c).result = false ∧
      (notify2 close c).cell.waker = c.waker ∧
      (notify2 close c).cell.state = c.state ||| (NOTIFYING ||| close) ∧
      (notify2 close c).woken = none) := by
  obtain ⟨s, w⟩ := c
  constructor
  · intro hs
    simp only [WaitCell.state] at hs
    subst hs
    rcases hclose with rfl | rfl <;>
      rcases w with _ | wv <;>
        simp [notify2, WAITING, NOTIFYING, CLOSED, NOT_NOTIFYING] <;> decide
  · intro hs
    simp only [WaitCell.state] at hs
    simp [notify2, if_neg hs]

/-- Witness for C6: `wake()` (`close = WAITING`) on a cell in `WAITING`
holding waker `5`. -/
theorem c6_notify2_witness :
    ((WaitCell.mk WAITING (some 5)).state = WAITING →
      (notify2 WAITING ⟨WAITING, some 5⟩).cell.waker = none ∧
      (notify2 WAITING ⟨WAITING, some 5⟩).cell.state = WAITING ∧
      ((notify2 WAITING ⟨WAITING, some 5⟩).result = true
        ↔ (WaitCell.mk WAITING (some 5)).waker.isSome = true) ∧
      (notify2 WAITING ⟨WAITING, some 5⟩).woken = (WaitCell.mk WAITING (some 5)).waker) ∧
    ((WaitCell.mk WAITING (some 5)).state ≠ WAITING →
      (notify2 WAITING ⟨WAITING, some 5⟩).result = false ∧
      (notify2 WAITING ⟨WAITING, some 5⟩).cell.waker = (WaitCell.mk WAITING (some 5)).waker ∧
      (notify2 WAITING ⟨WAITING, some 5⟩).cell.state
        = (WaitCell.mk WAITING (some 5)).state ||| (NOTIFYING ||| WAITING) ∧
      (notify2 WAITING ⟨WAITING, some 5⟩).woken = none) :=
  c6_notify2 WAITING ⟨WAITING, some 5⟩ (Or.inl rfl)

/-- C3, counterexample.  `Wait::poll` sets `registered` only in the
`Ok` branch (cell.rs line 247), so a poll that returns
`Ready(Err(Closed))` leaves `registered` false: polling a fresh `Wait`
on a closed cell returns `Ready(Err(Closed))`, and the next poll of the
same future calls `register_wait` on the cell again (`touchedCell`) and
returns `Ready(Err(Closed))` again, not `Ready(Ok(()))` — refuting the
claim that after any `Ready` result subsequent polls return
`Ready(Ok(()))` without touching the cell. -/
theorem c3_counterexample :
    (wait_poll (fun a b => a == b) 0 0 ⟨false⟩ ⟨CLOSED, none⟩).out = .ready (.error ()) ∧
    (wait_poll (fun a b => a == b) 1 0
        (wait_poll (fun a b => a == b) 0 0 ⟨false⟩ ⟨CLOSED, none⟩).fut
        (wait_poll (fun a b => a == b) 0 0 ⟨false⟩ ⟨CLOSED, none⟩).cell).touchedCell = true ∧
    (wait_poll (fun a b => a == b) 1 0
        (wait_poll (fun a b => a == b) 0 0 ⟨false⟩ ⟨CLOSED, none⟩).fut
        (wait_poll (fun a b => a == b) 0 0 ⟨false⟩ ⟨CLOSED, none⟩).cell).out
      ≠ .ready (.ok ()) := by
  refine ⟨by decide, by decide, by decide⟩

/-- C3, amended.  Once `Wait::poll` has returned `Ready(Ok(()))` (which
happens exactly when `registered` is already set), that poll and every
subsequent poll of the same future return `Ready(Ok(()))` without
invoking any operation on the `WaitCell` and leave the cell unchanged. -/
theorem c3_fused_after_ready_ok (willWake willWake2 : Waker → Waker → Bool)
    (wk wk2 : Waker) (intf intf2 : Nat) (fut : WaitFuture) (c : WaitCell)
    (h : (wait_poll willWake wk intf fut c).out = .ready (.ok ())) :
    (wait_poll willWake wk intf fut c).touchedCell = false ∧
    (wait_poll willWake wk intf fut c).cell = c ∧
    (wait_poll willWake2 wk2 intf2 (wait_poll willWake wk intf fut c).fut
        (wait_poll willWake wk intf fut c).cell).out = .ready (.ok ()) ∧
    (wait_poll willWake2 wk2 intf2 (wait_poll willWake wk intf fut c).fut
        (wait_poll willWake wk intf fut c).cell).touchedCell = false ∧
    (wait_poll willWake2 wk2 intf2 (wait_poll willWake wk intf fut c).fut
        (wait_poll willWake wk intf fut c).cell).cell = c := by
  by_cases hr : fut.registered
  · simp [wait_poll, hr]
  · exfalso
    rcases hres : (register_wait willWake wk intf c).result with e | u
    · rcases e <;> simp [wait_poll, hr, hres] at h
    · simp [wait_poll, hr, hres] at h

/-- Witness for C3's amended theorem: a `Wait` whose `registered` flag
is set, polled twice on a cell in `WAITING`. -/
theorem c3_fused_after_ready_ok_witness :
    (wait_poll (fun a b => a == b) 0 0 ⟨true⟩ ⟨WAITING, none⟩).touchedCell = false ∧
    (wait_poll (fun a b => a == b) 0 0 ⟨true⟩ ⟨WAITING, none⟩).cell = ⟨WAITING, none⟩ ∧
    (wait_poll (fun a b => a == b) 1 0
        (wait_poll (fun a b => a == b) 0 0 ⟨true⟩ ⟨WAITING, none⟩).fut
        (wait_poll (fun a b => a == b) 0 0 ⟨true⟩ ⟨WAITING, none⟩).cell).out
      = .ready (.ok ()) ∧
    (wait_poll (fun a b => a == b) 1 0
        (wait_poll (fun a b => a == b) 0 0 ⟨true⟩ ⟨WAITING, none⟩).fut
        (wait_poll (fun a b => a == b) 0 0 ⟨true⟩ ⟨WAITING, none⟩).cell).touchedCell
      = false ∧
    (wait_poll (fun a b => a == b) 1 0
        (wait_poll (fun a b => a == b) 0 0 ⟨true⟩ ⟨WAITING, none⟩).fut
        (wait_poll (fun a b => a == b) 0 0 ⟨true⟩ ⟨WAITING, none⟩).cell).cell
      = ⟨WAITING, none⟩ :=
  c3_fused_after_ready_ok (fun a b => a == b) (fun a b => a == b) 0 1 0 0
    ⟨true⟩ ⟨WAITING, none⟩ (by decide)

theorem UStack.pushAll_append (s : UStack) (ps : List Nat) (p : Nat) :
    UStack.pushAll s (ps ++ [p]) = (UStack.pushAll s ps).push p := by
  induction ps generalizing s with
  | nil => rfl
  | cons x xs ih => simpa [UStack.pushAll] using ih (s.push x)

theorem UStack.pushAll_next_not_mem (s : UStack) (ps : List Nat) (q : Nat)
    (h : q ∉ ps) : (UStack.pushAll s ps).next q = s.next q := by
  induction ps generalizing s with
  | nil => rfl
  | cons x xs ih =>
      simp only [List.mem_cons, not_or] at h
      rw [UStack.pushAll, ih (s.push x) h.2]
      simp [UStack.push, h.1]

theorem UStack.pop_push (s : UStack) (p : Nat) (h : s.next p = none) :
    (s.push p).pop = (some p, s) := by
  obtain ⟨hd, nxt⟩ := s
  simp only [UStack.next] at h
  simp only [UStack.push, UStack.pop, Prod.mk.injEq, true_and]
  refine UStack.ext ?_ ?_
  · simp
  · funext q
    by_cases hq : q = p
    · subst hq
      simp [h]
    · simp [hq]

theorem pushAll_popN_reverse (ps : List Nat) (h : ps.Nodup) :
    UStack.popN ps.length (UStack.pushAll UStack.empty ps)
      = (ps.reverse, UStack.empty) := by
  induction ps using List.reverseRecOn with
  | nil => rfl
  | append_singleton ps p ih =>
      simp only [List.nodup_append, List.nodup_cons, List.not_mem_nil,
        not_false_iff, List.nodup_nil, List.disjoint_singleton] at h
      have hp : p ∉ ps := h.2.2
      have hnext : (UStack.pushAll UStack.empty ps).next p = none :=
        UStack.pushAll_next_not_mem _ _ _ hp
      rw [UStack.pushAll_append, List.length_append]
      simp [UStack.popN, UStack.pop_push _ _ hnext, ih h.1, List.reverse_append]

/-- C8.  Single-owner LIFO: pushing a list of (distinct, initially
unlinked) elements onto an empty `Stack` and then popping repeatedly
yields exactly the reverse of push order and ends in the empty stack
(in particular every popped element's `next` link is back to null and a
further pop returns `None`); moreover each individual pop clears the
popped element's `next` link, and pop on an empty stack returns
`None` leaving it unchanged.  Iterating the stack is repeated `pop`
(transfer_stack.rs line 216). -/
theorem c8_stack_pop_reverse_push :
    (∀ ps : List Nat, ps.Nodup →
        UStack.popN ps.length (UStack.pushAll UStack.empty ps)
          = (ps.reverse, UStack.empty)) ∧
    (∀ (s : UStack) (h : Nat), s.head = some h → (s.pop.2).next h = none) ∧
    (∀ s : UStack, s.head = none → s.pop = (none, s)) := by
  refine ⟨pushAll_popN_reverse, ?_, ?_⟩
  · intro s h hs
    obtain ⟨hd, nxt⟩ := s
    simp only [UStack.head] at hs
    subst hs
    simp [UStack.pop]
  · intro s hs
    obtain ⟨hd, nxt⟩ := s
    simp only [UStack.head] at hs
    subst hs
    rfl

/-- Witness for C8 at the §8 S3 scenario: push `1, 2, 3`, pop
everything: `3, 2, 1`, ending empty; pop of a one-element stack clears
its `next`; pop of the empty stack is `None`. -/
theorem c8_stack_pop_reverse_push_witness :
    UStack.popN 3 (UStack.pushAll UStack.empty [1, 2, 3])
      = ([3, 2, 1], UStack.empty) ∧
    ((UStack.pushAll UStack.empty [1]).pop.2).next 1 = none ∧
    UStack.empty.pop = (none, UStack.empty) :=
  ⟨by simpa using c8_stack_pop_reverse_push.1 [1, 2, 3] (by decide),
    c8_stack_pop_reverse_push.2.1 (UStack.pushAll UStack.empty [1]) 1 rfl,
    c8_stack_pop_reverse_push.2.2 UStack.empty rfl⟩

/-- C7.  PIT divisor computation.  For every duration whose tick count
`TICKS_PER_MS * ms` (with `ms` the duration's whole milliseconds) fits
in a `u16`, `interrupt_in` and (with no sleep in progress)
`start_periodic_timer` succeed and program exactly that divisor (one
command byte, then the divisor's low and high bytes on channel 0); a
1-second duration yields `InvalidDuration` since `1000 * 1193 =
1_193_000 > 65_535`.  However the claim's converse direction fails:
`TICKS_PER_MS * duration_ms` is computed in wrapping `usize`
arithmetic, so for the 15_462_484_554_660_144 ms duration the tick
count `18_446_744_073_709_551_792` exceeds `u16::MAX`, yet the product
wraps modulo `2^64` to `176` and `interrupt_in` succeeds, programming
divisor 176 instead of returning `InvalidDuration`. -/
theorem c7_pit_divisor :
    (∀ d : Nat, durAsMillis d < USIZE_MOD → TICKS_PER_MS * durAsMillis d ≤ 65535 →
      (interrupt_in d).result = .ok () ∧
      (interrupt_in d).writes =
        [(PORT_COMMAND, commandByte false MODE_INTERRUPT ACCESS_BOTH CHANNEL_0),
          (PORT_CHANNEL0, TICKS_PER_MS * durAsMillis d % 256),
          (PORT_CHANNEL0, TICKS_PER_MS * durAsMillis d / 256)]) ∧
    (∀ (d : Nat) (ci : Option Nat),
      durAsMillis d < USIZE_MOD → TICKS_PER_MS * durAsMillis d ≤ 65535 →
      (start_periodic_timer false d ci).result = .ok () ∧
      (start_periodic_timer false d ci).writes =
        [(PORT_COMMAND, commandByte false MODE_SQUARE_WAVE ACCESS_BOTH CHANNEL_0),
          (PORT_CHANNEL0, TICKS_PER_MS * durAsMillis d % 256),
          (PORT_CHANNEL0, TICKS_PER_MS * durAsMillis d / 256)] ∧
      (start_periodic_timer false d ci).channel0_interval = some d) ∧
    ((interrupt_in (10 ^ 9)).result
        = .error ⟨10 ^ 9, "PIT interrupt target tick count would exceed a u16"⟩ ∧
      1000 * 1193 = 1193000 ∧ 65535 < 1193000) ∧
    (65535 < TICKS_PER_MS * durAsMillis 15462484554660144000000 ∧
      (interrupt_in 15462484554660144000000).result = .ok () ∧
      (interrupt_in 15462484554660144000000).writes
        = [(PORT_COMMAND, 48), (PORT_CHANNEL0, 176), (PORT_CHANNEL0, 0)]) := by
  have h16 : (2 : Nat) ^ 16 = 65536 := by decide
  have h64 : (65536 : Nat) ≤ USIZE_MOD := by decide
  refine ⟨?_, ?_, by refine ⟨by decide, rfl, by decide⟩, by refine ⟨by decide, by decide, by decide⟩⟩
  · intro d h1 h2
    have hmod : TICKS_PER_MS * durAsMillis d % USIZE_MOD = TICKS_PER_MS * durAsMillis d :=
      Nat.mod_eq_of_lt (by omega)
    have hA : ¬ (durAsMillis d ≥ USIZE_MOD) := by omega
    have hB : ¬ (TICKS_PER_MS * durAsMillis d % USIZE_MOD ≥ 2 ^ 16) := by
      rw [hmod, h16]; omega
    have hB2 : ¬ (65536 ≤ TICKS_PER_MS * durAsMillis d) := by omega
    simp [interrupt_in, hA, hB, hB2, hmod, setDivisorWrites]
  · intro d ci h1 h2
    have hmod : TICKS_PER_MS * durAsMillis d % USIZE_MOD = TICKS_PER_MS * durAsMillis d :=
      Nat.mod_eq_of_lt (by omega)
    have hA : ¬ (durAsMillis d ≥ USIZE_MOD) := by omega
    have hB : ¬ (TICKS_PER_MS * durAsMillis d % USIZE_MOD ≥ 2 ^ 16) := by
      rw [hmod, h16]; omega
    have hB2 : ¬ (65536 ≤ TICKS_PER_MS * durAsMillis d) := by omega
    simp [start_periodic_timer, hA, hB, hB2, hmod, setDivisorWrites]

/-- Witness for C7 at a 10 ms duration (`10 ^ 7` ns): tick count
`1193 * 10 = 11930` fits a `u16`, and both calls program divisor
`11930 = 0x2E9A` (low byte 154, high byte 46). -/
theorem c7_pit_divisor_witness :
    ((interrupt_in (10 ^ 7)).result = .ok () ∧
      (interrupt_in (10 ^ 7)).writes =
        [(PORT_COMMAND, commandByte false MODE_INTERRUPT ACCESS_BOTH CHANNEL_0),
          (PORT_CHANNEL0, TICKS_PER_MS * durAsMillis (10 ^ 7) % 256),
          (PORT_CHANNEL0, TICKS_PER_MS * durAsMillis (10 ^ 7) / 256)]) ∧
    ((start_periodic_timer false (10 ^ 7) none).result = .ok () ∧
      (start_periodic_timer false (10 ^ 7) none).writes =
        [(PORT_COMMAND, commandByte false MODE_SQUARE_WAVE ACCESS_BOTH CHANNEL_0),
          (PORT_CHANNEL0, TICKS_PER_MS * durAsMillis (10 ^ 7) % 256),
          (PORT_CHANNEL0, TICKS_PER_MS * durAsMillis (10 ^ 7) / 256)] ∧
      (start_periodic_timer false (10 ^ 7) none).channel0_interval = some (10 ^ 7)) :=
  ⟨c7_pit_divisor.1 (10 ^ 7) (by decide) (by decide),
    c7_pit_divisor.2.1 (10 ^ 7) none (by decide) (by decide)⟩

/-- C10.  If `sleep_blocking` wins the `SLEEPING` compare-and-swap but
`interrupt_in` then fails with `InvalidDuration`, it returns the error
(wrapped in `PitError::InvalidDuration`) with the process-wide
`SLEEPING` flag left `true`; consequently every subsequent
`sleep_blocking` fails with `SleepInProgress`, every subsequent
`start_periodic_timer` fails with `SleepInProgress`, and
`handle_interrupt` returns the prior value `true` and resets the flag
to `false`. -/
theorem c10_sleeping_flag_left_set (d : Nat) (e : InvalidDur)
    (herr : (interrupt_in d).result = .error e) :
    (sleep_blocking_start false d).outcome = .failedInvalidDuration e ∧
    (sleep_blocking_start false d).sleeping = true ∧
    (∀ d2 : Nat, (sleep_blocking_start true d2).outcome = .failedSleepInProgress ∧
        (sleep_blocking_start true d2).sleeping = true) ∧
    (∀ (d2 : Nat) (ci : Option Nat),
        (start_periodic_timer true d2 ci).result = .error .sleepInProgress) ∧
    handle_interrupt true = (true, false) := by
  refine ⟨?_, ?_, fun d2 => ⟨rfl, rfl⟩, fun d2 ci => rfl, rfl⟩
  · simp [sleep_blocking_start, herr]
  · simp [sleep_blocking_start, herr]

/-- Witness for C10 at a 1-second sleep, whose divisor `1_193_000`
exceeds `u16::MAX`, so `interrupt_in` fails. -/
theorem c10_sleeping_flag_left_set_witness :
    (sleep_blocking_start false (10 ^ 9)).outcome
      = .failedInvalidDuration
          ⟨10 ^ 9, "PIT interrupt target tick count would exceed a u16"⟩ ∧
    (sleep_blocking_start false (10 ^ 9)).sleeping = true ∧
    (∀ d2 : Nat, (sleep_blocking_start true d2).outcome = .failedSleepInProgress ∧
        (sleep_blocking_start true d2).sleeping = true) ∧
    (∀ (d2 : Nat) (ci : Option Nat),
        (start_periodic_timer true d2 ci).result = .error .sleepInProgress) ∧
    handle_interrupt true = (true, false) :=
  c10_sleeping_flag_left_set (10 ^ 9)
    ⟨10 ^ 9, "PIT interrupt target tick count would exceed a u16"⟩ (by decide)

end Spec2Proof
